import Mathlib

/-!
Verification of `src/az-function-http-trigger/function_app.py`, a three-handler
Azure Functions app:
  * `generate_email`       — HTTP intake, validates and enqueues a DraftRequest;
  * `process_generate_email` — queue worker, builds a prompt, calls the text
    generation service, enqueues a GeneratedReply and posts two audit records;
  * `create_outlook_draft` — HTTP endpoint creating a mailbox draft via a
    provider API.

The embedding models parsed JSON values with the inductive `Json`; a parsed
request body is an association list `List (String × Json)` (a JSON object,
which is the shape every claim quantifies over).  External collaborators
(queue output binding, generation service, HTTP posts, token acquisition) are
modelled as oracles: each run records its outward calls as an ordered trace of
`Effect`s, and a fallible call's outcome is the oracle's `Except` value, with
`.error` standing for a raised Python exception.  A handler's own outcome is
`Except Exc _`: `.error` means an exception propagated out of the handler.
-/

/-- A parsed JSON value (the result of Python `json.loads` / `req.get_json()`).
Numbers are modelled as integers; no claim touches fractional values. -/
inductive Json where
  | null
  | bool (b : Bool)
  | num (n : Int)
  | str (s : String)
  | arr (elems : List Json)
  | obj (fields : List (String × Json))
deriving Repr

/-- A Python exception, identified by its message. -/
abbrev Exc := String

/-- A parsed JSON object body, as an association list. -/
abbrev JsonObj := List (String × Json)

/-- Python `d.get(k)` / `k in d` on a parsed JSON object: first binding wins. -/
def jget (d : JsonObj) (k : String) : Option Json :=
  match d with
  | [] => none
  | (k', v) :: rest => if k' = k then some v else jget rest k

/-- Python `k in d` for a dict. -/
def hasKey (d : JsonObj) (k : String) : Bool :=
  (jget d k).isSome

/-- Python truthiness of a parsed JSON value (`if x:`). -/
def Json.truthy : Json → Bool
  | .null => false
  | .bool b => b
  | .num n => n != 0
  | .str s => s ≠ ""
  | .arr es => !es.isEmpty
  | .obj fs => !fs.isEmpty

/-- Python truthiness of `d.get(k)`: `None` (missing key) is falsy. -/
def truthyOpt : Option Json → Bool
  | none => false
  | some j => j.truthy

/-- Python `repr` of a parsed JSON value, as used for elements inside
`str` of a container. -/
def Json.pyRepr : Json → String
  | .null => "None"
  | .bool true => "True"
  | .bool false => "False"
  | .num n => toString n
  | .str s => "'" ++ s ++ "'"
  | .arr es => "[" ++ String.intercalate ", " (es.attach.map fun e => e.1.pyRepr) ++ "]"
  | .obj fs => "\x7b" ++ String.intercalate ", "
      (fs.attach.map fun f => "'" ++ f.1.1 ++ "': " ++ f.1.2.pyRepr) ++ "\x7d"
decreasing_by
  · have := List.sizeOf_lt_of_mem e.2
    simp_all
    omega
  · have := List.sizeOf_lt_of_mem f.2
    cases f with
    | mk val prop =>
      cases val
      simp_all
      omega

/-- Python `str` of a parsed JSON value, as interpolated by an f-string. -/
def Json.pyStr : Json → String
  | .str s => s
  | j => j.pyRepr

/-- Python `str` of `d.get(k)`: interpolating a missing field gives "None". -/
def pyStr (v : Option Json) : String :=
  match v with
  | none => "None"
  | some j => j.pyStr

/-- Python `None` serializes to JSON `null`; used where a possibly-missing field is
placed into a dict that is then `json.dumps`ed. -/
def jval : Option Json → Json
  | none => .null
  | some j => j

/-- An HTTP response (`func.HttpResponse(body, status_code)`). -/
structure HttpResponse where
  body : String
  status_code : Nat
deriving Repr, DecidableEq

/-! ### 1. HTTP route `generate-email` (intake) -/

/-- The list `required_fields = ['subject', 'body', 'sender_email']` (line 23). -/
def required_fields : List String := ["subject", "body", "sender_email"]

/-- Handler `generate_email` (lines 15–37).  Input: the outcome of `req.get_json()`
(`none` models the parse exception caught at lines 16–20).  Output: the list
of payloads passed to `generateEmailQueue.set` (decoded; `json.dumps` followed
by the queue's decode round-trips), and the HTTP response. -/
def generate_email (parsed : Option JsonObj) : List Json × HttpResponse :=
  match parsed with
  | none => ([], ⟨"Invalid JSON body.", 400⟩)
  | some req_body =>
    if !(required_fields.all fun field => hasKey req_body field) then
      ([], ⟨"Please provide 'subject', 'body', and 'sender_email' in the request body.", 400⟩)
    else
      ([Json.obj req_body], ⟨"Your request has been queued for processing.", 202⟩)

/-! ### 2. Queue trigger `generate-email-queue` (reply generation worker) -/

/-- One chat message in the prompt (`{"role": ..., "content": ...}`). -/
structure ChatMessage where
  role : String
  content : String
deriving Repr, DecidableEq

/-- The arguments of `openai_client.chat.completions.create` (lines 86–95).
`temperature` and `top_p` are modelled as rationals. -/
structure ChatParams where
  model : String
  messages : List ChatMessage
  temperature : ℚ
  max_tokens : Nat
  top_p : ℚ
  frequency_penalty : ℚ
  presence_penalty : ℚ
deriving Repr, DecidableEq

/-- An outward call made by the worker, in program order. -/
inductive Effect where
  /-- `openai_client.chat.completions.create(...)` (line 86). -/
  | openaiCreate (p : ChatParams)
  /-- `outlookDraftQueue.set(json.dumps(content))` (line 109); `content` is the
  decoded JSON content of the queued message. -/
  | queueBSet (content : Json)
  /-- `requests.post(url, headers=..., json=body)` (lines 131, 146). -/
  | httpPost (url : String) (body : Json)
deriving Repr

/-- Outcomes of the worker's fallible external calls: `.error` models the call
raising a Python exception.  A successful generation call yields the raw
`response.choices[0].message.content`. -/
structure Oracles where
  openaiResult : Except Exc String
  queueBResult : Except Exc Unit
  postMetadataResult : Except Exc Unit
  postTrainingResult : Except Exc Unit

/-- Constant `system_content` (line 73). -/
def system_content : String :=
  "You are a helpful assistant that drafts professional email replies. Be concise and polite."

/-- Prompt `user_content` (lines 75–77): the f-string embedding sender, subject and
body, plus the sign-off instruction appended when `recipient_name` is truthy. -/
def mkUserContent (sender_email original_email_subject original_email_body
    recipient_name recipient_email : Option Json) : String :=
  let base := "The following is an email from '" ++ pyStr sender_email ++
    "' with the subject '" ++ pyStr original_email_subject ++ "' and body:\n\n---\n'" ++
    pyStr original_email_body ++ "'\n---\n\nDraft a concise and polite reply."
  if truthyOpt recipient_name then
    base ++ "\n\nSign off as " ++ pyStr recipient_name ++
      " with position as Magiccars Customer Care and email contact " ++
      pyStr recipient_email ++ "."
  else
    base

/-- Worker `process_generate_email` (lines 42–149).  Inputs: the environment
(`os.environ`), the oracles for the external calls, and the outcome of
`json.loads(msg.get_body().decode('utf-8'))` (`none` models the decode
exception caught at lines 44–48).  Output: the ordered trace of outward calls
and the handler's own outcome (`.error` would mean an exception escaped). -/
def process_generate_email (env : String → Option String) (o : Oracles)
    (msgDecoded : Option JsonObj) : List Effect × Except Exc Unit :=
  match msgDecoded with
  | none => ([], .ok ())   -- decode failure: logged and swallowed (lines 46–48)
  | some req_body =>
    let original_email_subject := jget req_body "subject"
    let original_email_body := jget req_body "body"
    let sender_email := jget req_body "sender_email"
    let recipient_email := jget req_body "recipient_email"
    let recipient_name := jget req_body "recipient_name"
    -- Initialize OpenAI client (lines 58–69): a missing environment variable
    -- raises KeyError, caught and swallowed (lines 67–69).
    match env "AZURE_OPENAI_API_KEY", env "AZURE_OPENAI_ENDPOINT",
          env "AZURE_OPENAI_DEPLOYMENT_NAME" with
    | some _, some _, some deployment_name =>
      let user_content := mkUserContent sender_email original_email_subject
        original_email_body recipient_name recipient_email
      let prompt_messages : List ChatMessage :=
        [⟨"system", system_content⟩, ⟨"user", user_content⟩]
      let params : ChatParams :=
        { model := deployment_name, messages := prompt_messages,
          temperature := 0.7, max_tokens := 250, top_p := 0.95,
          frequency_penalty := 0, presence_penalty := 0 }
      -- try block (lines 85–149): every exception below is caught (line 148).
      let effs := [Effect.openaiCreate params]
      match o.openaiResult with
      | .error _ => (effs, .ok ())
      | .ok content =>
        let reply_content := content.trim
        let reply_subject := "Re: " ++ pyStr original_email_subject
        let draft_payload := Json.obj
          [("subject", .str reply_subject), ("body", .str reply_content),
           ("recipient_email", jval sender_email), ("sender_email", jval recipient_email)]
        let effs := effs ++ [Effect.queueBSet draft_payload]
        match o.queueBResult with
        | .error _ => (effs, .ok ())
        | .ok () =>
          -- Airtable configuration (lines 112–114) is read inside the try
          -- block: a missing variable raises KeyError, caught at line 148.
          match env "AIRTABLE_API_KEY", env "AIRTABLE_URL_METADATA",
                env "AIRTABLE_URL_TRAINING" with
          | some _, some airtable_url_metadata, some airtable_url_training =>
            let metadata_record := Json.obj [("fields", Json.obj
              [("original_email_subject", jval original_email_subject),
               ("original_email_body", jval original_email_body),
               ("sender_email", jval sender_email),
               ("recipient_email", jval recipient_email),
               ("recipient_name", jval recipient_name)])]
            let effs := effs ++ [Effect.httpPost airtable_url_metadata metadata_record]
            match o.postMetadataResult with
            | .error _ => (effs, .ok ())
            | .ok () =>
              let training_record := Json.obj [("fields", Json.obj
                [("system_role", .str "system"), ("system_content", .str system_content),
                 ("user_role", .str "user"), ("user_content", .str user_content),
                 ("reply_draft", .str reply_content), ("reply_sent", .str ""),
                 ("status", .str "Draft")])]
              (effs ++ [Effect.httpPost airtable_url_training training_record], .ok ())
          | _, _, _ => (effs, .ok ())
    | _, _, _ => ([], .ok ())   -- KeyError: logged and swallowed (lines 67–69)

/-! ### 3. HTTP route `create-outlook-draft` (draft creation) -/

/-- Outcomes of the draft-creation endpoint's external calls.  `tokenResult`
is the dict returned by `app.acquire_token_for_client` (or an exception from
the identity-provider exchange); `postResult` is the mailbox provider's
response `(status_code, text)` to `requests.post`, or a transport exception. -/
structure GraphOracles where
  tokenResult : Except Exc (List (String × String))
  postResult : Except Exc (Nat × String)

/-- Lookup `result.get("access_token")` on the token dict. -/
def sget (d : List (String × String)) (k : String) : Option String :=
  match d with
  | [] => none
  | (k', v) :: rest => if k' = k then some v else sget rest k

/-- Handler `create_outlook_draft` (lines 153–212).  Input: the environment, the
oracles, and the outcome of `req.get_json()` (`none` models a parse
exception — uncaught here, line 154).  Output: `.ok (some r)` when the
handler returns response `r`, `.ok none` for the bare `return` at line 174,
and `.error e` when an exception propagates out of the handler. -/
def create_outlook_draft (env : String → Option String) (o : GraphOracles)
    (parsed : Option JsonObj) : Except Exc (Option HttpResponse) :=
  match parsed with
  | none => .error "JSONDecodeError"   -- req.get_json() raises, no try/except
  | some req_body =>
    -- os.environ lookups (lines 157–159): KeyError propagates.
    match env "AZURE_TENANT_ID", env "AZURE_CLIENT_ID", env "AZURE_CLIENT_SECRET" with
    | some _, some _, some _ =>
      match o.tokenResult with
      | .error e => .error e   -- token exchange raised; uncaught
      | .ok result =>
        let access_token := sget result "access_token"
        -- `if not access_token:` (line 172): missing or empty token.
        if access_token = none ∨ access_token = some "" then
          .ok none   -- bare `return` (line 174): no response object
        else
          -- Dict lookups building the payload and URL (lines 179–201):
          -- a missing field raises KeyError, uncaught.
          match jget req_body "subject", jget req_body "body",
                jget req_body "recipient_email", jget req_body "sender_email" with
          | some subj, some bdy, some rcpt, some sndr =>
            let draft_payload := Json.obj
              [("message", Json.obj
                 [("subject", subj),
                  ("body", Json.obj [("contentType", .str "Text"), ("content", bdy)]),
                  ("toRecipients", Json.arr
                    [Json.obj [("emailAddress", Json.obj [("address", rcpt)])]]),
                  ("from", Json.obj [("emailAddress", Json.obj [("address", sndr)])])]),
               ("saveToSentItems", .str "false")]
            let _url := "https://graph.microsoft.com/v1.0/users/" ++ sndr.pyStr ++
              "/mailFolders/drafts/messages"
            let _payload := draft_payload
            match o.postResult with
            | .error e => .error e   -- requests.post raised; uncaught
            | .ok (status_code, _text) =>
              if status_code = 201 then
                .ok (some ⟨"Draft created.", 201⟩)
              else
                .ok (some ⟨"Failed to create draft.", status_code⟩)
          | _, _, _, _ => .error "KeyError"
    | _, _, _ => .error "KeyError"

/-! ### Substring helpers used to state the prompt-content claims -/

/-- Whether `pat` occurs as a contiguous run inside `l`. -/
def listContains (pat : List Char) : List Char → Bool
  | [] => pat.isPrefixOf ([] : List Char)
  | c :: rest => pat.isPrefixOf (c :: rest) || listContains pat rest

/-- Whether `pat` occurs as a contiguous substring of `s`. -/
def containsSub (s pat : String) : Bool :=
  listContains pat.toList s.toList

/-- Whether `s` ends with `post`. -/
def strEndsWith (s post : String) : Bool :=
  post.toList.isSuffixOf s.toList

/-! ### Trace observation helpers used to state the worker claims -/

/-- The decoded contents of the messages the worker enqueued to
`outlook-draft-queue`, in order. -/
def queueBSets (effs : List Effect) : List Json :=
  effs.filterMap fun e =>
    match e with
    | .queueBSet j => some j
    | _ => none

/-- Holds when every `httpPost` in the trace is preceded by some `queueBSet`:
scanning left to right, a `queueBSet` must appear before the first
`httpPost`. -/
def enqueuePrecedesPosts : List Effect → Bool
  | [] => true
  | .queueBSet _ :: _ => true
  | .httpPost _ _ :: _ => false
  | .openaiCreate _ :: rest => enqueuePrecedesPosts rest

/-! ### Helper lemmas -/

/-- A pattern that is a prefix of the scanned list is found. -/
theorem listContains_of_front (pat l : List Char) (h : pat <+: l) :
    listContains pat l = true := by
  cases l with
  | nil =>
    have hp : pat = [] := List.prefix_nil.mp h
    subst hp
    simp [listContains, List.isPrefixOf_iff_prefix]
  | cons c rest =>
    simp only [listContains, Bool.or_eq_true, List.isPrefixOf_iff_prefix]
    exact Or.inl h

/-- Searching past a leading chunk preserves a hit. -/
theorem listContains_append_right (pat l1 l2 : List Char)
    (h : listContains pat l2 = true) : listContains pat (l1 ++ l2) = true := by
  induction l1 with
  | nil => simpa
  | cons c rest ih =>
    simp only [List.cons_append, listContains, Bool.or_eq_true]
    exact Or.inr ih

/-- A string of the form `x ++ pat ++ y` contains `pat`. -/
theorem containsSub_sandwich (x pat y : String) :
    containsSub (x ++ pat ++ y) pat = true := by
  show listContains pat.toList (x ++ pat ++ y).toList = true
  have hdata : (x ++ pat ++ y).toList = x.toList ++ (pat.toList ++ y.toList) := by
    simp [String.toList, String.data_append]
  rw [hdata]
  exact listContains_append_right _ _ _
    (listContains_of_front _ _ (List.prefix_append _ _))

/-- An appended suffix is found by `strEndsWith`. -/
theorem strEndsWith_append (x post : String) :
    strEndsWith (x ++ post) post = true := by
  show (post.toList.isSuffixOf (x ++ post).toList) = true
  have hdata : (x ++ post).toList = x.toList ++ post.toList := by
    simp [String.toList, String.data_append]
  rw [hdata, List.isSuffixOf_iff_suffix]
  exact List.suffix_append _ _

/-! ### Claims C1 and C2 -/

/-- C1: for every request whose body parses as a JSON object containing all of
`subject`, `body`, `sender_email` with non-empty values, `generate_email`
enqueues exactly one message whose decoded content equals the payload, and
responds 202. -/
theorem C1_intake_valid_enqueues_once (req_body : JsonObj)
    (h : ∀ f ∈ required_fields, ∃ s : String, jget req_body f = some (.str s) ∧ s ≠ "") :
    (generate_email (some req_body)).1 = [Json.obj req_body] ∧
    (generate_email (some req_body)).2.status_code = 202 := by
  have hall : required_fields.all (fun field => hasKey req_body field) = true := by
    rw [List.all_eq_true]
    intro f hf
    obtain ⟨s, hs, _⟩ := h f hf
    simp [hasKey, hs]
  constructor <;> simp [generate_email, hall]

/-- Witness for C1 at a concrete valid payload. -/
theorem C1_witness :
    (∀ f ∈ required_fields, ∃ s : String,
        jget [("subject", Json.str "Hi"), ("body", Json.str "Hello"),
              ("sender_email", Json.str "a@x.com")] f = some (.str s) ∧ s ≠ "") ∧
    (generate_email (some [("subject", Json.str "Hi"), ("body", Json.str "Hello"),
        ("sender_email", Json.str "a@x.com")])).1 =
      [Json.obj [("subject", Json.str "Hi"), ("body", Json.str "Hello"),
        ("sender_email", Json.str "a@x.com")]] := by
  refine ⟨?_, ?_⟩
  · intro f hf
    fin_cases hf
    · exact ⟨"Hi", by simp [jget], by simp⟩
    · exact ⟨"Hello", by simp [jget], by simp⟩
    · exact ⟨"a@x.com", by simp [jget], by simp⟩
  · exact (C1_intake_valid_enqueues_once _ (by
      intro f hf
      fin_cases hf
      · exact ⟨"Hi", by simp [jget], by simp⟩
      · exact ⟨"Hello", by simp [jget], by simp⟩
      · exact ⟨"a@x.com", by simp [jget], by simp⟩)).1

/-- C2: for every parsed JSON object body missing at least one of `subject`,
`body`, `sender_email`, `generate_email` responds 400 and enqueues nothing. -/
theorem C2_intake_missing_field_rejects (req_body : JsonObj)
    (h : jget req_body "subject" = none ∨ jget req_body "body" = none ∨
         jget req_body "sender_email" = none) :
    (generate_email (some req_body)).1 = [] ∧
    (generate_email (some req_body)).2.status_code = 400 := by
  have hall : required_fields.all (fun field => hasKey req_body field) = false := by
    rw [List.all_eq_false]
    rcases h with h | h | h
    · exact ⟨"subject", by simp [required_fields], by simp [hasKey, h]⟩
    · exact ⟨"body", by simp [required_fields], by simp [hasKey, h]⟩
    · exact ⟨"sender_email", by simp [required_fields], by simp [hasKey, h]⟩
  constructor <;> simp [generate_email, hall]

/-- Witness for C2 at a concrete payload missing `sender_email`. -/
theorem C2_witness :
    jget [("subject", Json.str "Hi"), ("body", Json.str "Hello")] "sender_email" = none ∧
    (generate_email (some [("subject", Json.str "Hi"), ("body", Json.str "Hello")])).2.status_code
      = 400 :=
  ⟨by simp [jget],
   (C2_intake_missing_field_rejects _ (Or.inr (Or.inr (by simp [jget])))).2⟩


/-- C8: for every queued message whose body does not decode as JSON, the
worker aborts after logging: no generation call, no queue-B enqueue, no audit
post, and no exception escapes. -/
theorem C8_undecodable_message_noop (env : String → Option String) (o : Oracles) :
    process_generate_email env o none = ([], Except.ok ()) := rfl

/-- C10: a `recipient_name` field that is present but falsy (empty string, or
any other falsy value) yields the same prompt user turn as an absent
`recipient_name`: presence is tested by truthiness, not key membership. -/
theorem C10_falsy_recipient_name_no_signature (req_body : JsonObj) (j : Json)
    (hp : jget req_body "recipient_name" = some j) (hf : j.truthy = false) :
    mkUserContent (jget req_body "sender_email") (jget req_body "subject")
        (jget req_body "body") (jget req_body "recipient_name")
        (jget req_body "recipient_email") =
      mkUserContent (jget req_body "sender_email") (jget req_body "subject")
        (jget req_body "body") none (jget req_body "recipient_email") := by
  simp [mkUserContent, hp, truthyOpt, hf]

/-- Witness for C10 at a concrete payload with `recipient_name` set to `""`. -/
theorem C10_witness :
    jget [("subject", Json.str "Hi"), ("body", Json.str "B"),
          ("sender_email", Json.str "a@x.com"), ("recipient_email", Json.str "b@y.com"),
          ("recipient_name", Json.str "")] "recipient_name" = some (Json.str "") ∧
    (Json.str "").truthy = false ∧
    mkUserContent (some (Json.str "a@x.com")) (some (Json.str "Hi")) (some (Json.str "B"))
        (some (Json.str "")) (some (Json.str "b@y.com")) =
      mkUserContent (some (Json.str "a@x.com")) (some (Json.str "Hi")) (some (Json.str "B"))
        none (some (Json.str "b@y.com")) := by
  refine ⟨by simp [jget], by simp [Json.truthy], ?_⟩
  have h := C10_falsy_recipient_name_no_signature
    [("subject", Json.str "Hi"), ("body", Json.str "B"),
     ("sender_email", Json.str "a@x.com"), ("recipient_email", Json.str "b@y.com"),
     ("recipient_name", Json.str "")] (Json.str "") (by simp [jget]) (by simp [Json.truthy])
  simpa [jget] using h

/-- C3: when the generation call succeeds, the single message enqueued to
`outlook-draft-queue` carries subject `"Re: " ++ originalSubject`,
`recipient_email` equal to the original `sender_email`, and `sender_email`
equal to the original `recipient_email`. -/
theorem C3_reply_swaps_addresses (env : String → Option String) (o : Oracles)
    (req_body : JsonObj) (s_subj : String) (se re : Json) (k1 k2 dn content : String)
    (h1 : env "AZURE_OPENAI_API_KEY" = some k1)
    (h2 : env "AZURE_OPENAI_ENDPOINT" = some k2)
    (h3 : env "AZURE_OPENAI_DEPLOYMENT_NAME" = some dn)
    (hsub : jget req_body "subject" = some (.str s_subj))
    (hse : jget req_body "sender_email" = some se)
    (hre : jget req_body "recipient_email" = some re)
    (hok : o.openaiResult = .ok content) :
    queueBSets (process_generate_email env o (some req_body)).1 =
      [Json.obj [("subject", .str ("Re: " ++ s_subj)), ("body", .str content.trim),
                 ("recipient_email", se), ("sender_email", re)]] := by
  obtain ⟨r1, r2, r3, r4⟩ := o
  simp only at hok
  subst hok
  simp only [process_generate_email, h1, h2, h3, hsub, hse, hre, pyStr, Json.pyStr, jval]
  rcases r2 with e2 | ⟨⟩
  · simp [queueBSets]
  · rcases ha1 : env "AIRTABLE_API_KEY" with _ | a1 <;>
      rcases ha2 : env "AIRTABLE_URL_METADATA" with _ | a2 <;>
      rcases ha3 : env "AIRTABLE_URL_TRAINING" with _ | a3 <;>
      simp only [ha1, ha2, ha3] <;>
      rcases r3 with e3 | ⟨⟩ <;>
      simp [queueBSets]

/-- Witness for C3 at a concrete request and successful generation. -/
theorem C3_witness :
    queueBSets (process_generate_email
      (fun k => if k = "AZURE_OPENAI_API_KEY" then some "k" else
                if k = "AZURE_OPENAI_ENDPOINT" then some "e" else
                if k = "AZURE_OPENAI_DEPLOYMENT_NAME" then some "d" else none)
      ⟨.ok " Dear customer, thanks. ", .ok (), .ok (), .ok ()⟩
      (some [("subject", Json.str "Hi"), ("body", Json.str "B"),
             ("sender_email", Json.str "a@x.com"),
             ("recipient_email", Json.str "b@y.com")])).1 =
      [Json.obj [("subject", .str "Re: Hi"),
                 ("body", .str " Dear customer, thanks. ".trim),
                 ("recipient_email", .str "a@x.com"),
                 ("sender_email", .str "b@y.com")]] :=
  C3_reply_swaps_addresses _ _ _ "Hi" (.str "a@x.com") (.str "b@y.com") "k" "e" "d"
    " Dear customer, thanks. " rfl rfl rfl (by simp [jget]) (by simp [jget]) (by simp [jget]) rfl

/-- A hit in the scanned list survives appending on the right. -/
theorem listContains_append_left (pat l1 l2 : List Char)
    (h : listContains pat l1 = true) : listContains pat (l1 ++ l2) = true := by
  induction l1 with
  | nil =>
    have hp : pat = [] := by
      simpa [listContains, List.isPrefixOf_iff_prefix, List.prefix_nil] using h
    subst hp
    exact listContains_of_front _ _ List.nil_prefix
  | cons c rest ih =>
    simp only [listContains, Bool.or_eq_true, List.isPrefixOf_iff_prefix] at h
    rcases h with h | h
    · exact listContains_of_front _ _ (h.trans (List.prefix_append _ _))
    · simp only [List.cons_append, listContains, Bool.or_eq_true]
      exact Or.inr (ih h)

/-- A substring of the left part is a substring of the concatenation. -/
theorem containsSub_left (s t pat : String) (h : containsSub s pat = true) :
    containsSub (s ++ t) pat = true := by
  show listContains pat.toList (s ++ t).toList = true
  have hl : (s ++ t).toList = s.toList ++ t.toList := by
    simp [String.toList, String.data_append]
  rw [hl]
  exact listContains_append_left _ _ _ h

/-- A substring of the right part is a substring of the concatenation. -/
theorem containsSub_right (s t pat : String) (h : containsSub t pat = true) :
    containsSub (s ++ t) pat = true := by
  show listContains pat.toList (s ++ t).toList = true
  have hl : (s ++ t).toList = s.toList ++ t.toList := by
    simp [String.toList, String.data_append]
  rw [hl]
  exact listContains_append_right _ _ _ h

/-- Every string contains itself. -/
theorem containsSub_self (pat : String) : containsSub pat pat = true :=
  listContains_of_front _ _ (List.prefix_refl _)

/-- String concatenation is associative. -/
theorem strAppend_assoc (a b c : String) : a ++ b ++ c = a ++ (b ++ c) := by
  apply String.toList_inj.mp
  simp [String.toList, String.data_append]

/-- C4 (amended): the prompt's user turn contains the request's sender_email,
subject, and body values; when `recipient_name` is absent the user turn is
exactly the base text with no signature clause; when `recipient_name` is
present *and non-empty* the user turn ends with a signature clause containing
the recipient_name, the literal "Magiccars Customer Care", and the request's
recipient_email.  (The unamended claim fails when `recipient_name` is present
but empty: the code tests truthiness, not key membership.) -/
theorem C4_amended_user_turn (req_body : JsonObj) (s_snd s_subj s_body : String)
    (hsnd : jget req_body "sender_email" = some (.str s_snd))
    (hsub : jget req_body "subject" = some (.str s_subj))
    (hbody : jget req_body "body" = some (.str s_body)) :
    containsSub (mkUserContent (jget req_body "sender_email") (jget req_body "subject")
      (jget req_body "body") (jget req_body "recipient_name")
      (jget req_body "recipient_email")) s_snd = true ∧
    containsSub (mkUserContent (jget req_body "sender_email") (jget req_body "subject")
      (jget req_body "body") (jget req_body "recipient_name")
      (jget req_body "recipient_email")) s_subj = true ∧
    containsSub (mkUserContent (jget req_body "sender_email") (jget req_body "subject")
      (jget req_body "body") (jget req_body "recipient_name")
      (jget req_body "recipient_email")) s_body = true ∧
    (jget req_body "recipient_name" = none →
      mkUserContent (jget req_body "sender_email") (jget req_body "subject")
        (jget req_body "body") (jget req_body "recipient_name")
        (jget req_body "recipient_email") =
      "The following is an email from '" ++ s_snd ++ "' with the subject '" ++ s_subj ++
        "' and body:\n\n---\n'" ++ s_body ++ "'\n---\n\nDraft a concise and polite reply.") ∧
    (∀ r e : String, jget req_body "recipient_name" = some (.str r) → r ≠ "" →
      jget req_body "recipient_email" = some (.str e) →
      strEndsWith (mkUserContent (jget req_body "sender_email") (jget req_body "subject")
          (jget req_body "body") (jget req_body "recipient_name")
          (jget req_body "recipient_email"))
        ("\n\nSign off as " ++ r ++
          " with position as Magiccars Customer Care and email contact " ++ e ++ ".") = true ∧
      containsSub (mkUserContent (jget req_body "sender_email") (jget req_body "subject")
        (jget req_body "body") (jget req_body "recipient_name")
        (jget req_body "recipient_email")) r = true ∧
      containsSub (mkUserContent (jget req_body "sender_email") (jget req_body "subject")
        (jget req_body "body") (jget req_body "recipient_name")
        (jget req_body "recipient_email")) "Magiccars Customer Care" = true ∧
      containsSub (mkUserContent (jget req_body "sender_email") (jget req_body "subject")
        (jget req_body "body") (jget req_body "recipient_name")
        (jget req_body "recipient_email")) e = true) := by
  have hb1 : containsSub ("The following is an email from '" ++ s_snd ++
      "' with the subject '" ++ s_subj ++ "' and body:\n\n---\n'" ++ s_body ++
      "'\n---\n\nDraft a concise and polite reply.") s_snd = true := by
    apply containsSub_left
    apply containsSub_left
    apply containsSub_left
    apply containsSub_left
    apply containsSub_left
    exact containsSub_right _ _ _ (containsSub_self _)
  have hb2 : containsSub ("The following is an email from '" ++ s_snd ++
      "' with the subject '" ++ s_subj ++ "' and body:\n\n---\n'" ++ s_body ++
      "'\n---\n\nDraft a concise and polite reply.") s_subj = true := by
    apply containsSub_left
    apply containsSub_left
    apply containsSub_left
    exact containsSub_right _ _ _ (containsSub_self _)
  have hb3 : containsSub ("The following is an email from '" ++ s_snd ++
      "' with the subject '" ++ s_subj ++ "' and body:\n\n---\n'" ++ s_body ++
      "'\n---\n\nDraft a concise and polite reply.") s_body = true := by
    apply containsSub_left
    exact containsSub_right _ _ _ (containsSub_self _)
  have hshape : ∀ pat : String,
      (containsSub ("The following is an email from '" ++ s_snd ++
        "' with the subject '" ++ s_subj ++ "' and body:\n\n---\n'" ++ s_body ++
        "'\n---\n\nDraft a concise and polite reply.") pat = true) →
      containsSub (mkUserContent (jget req_body "sender_email") (jget req_body "subject")
        (jget req_body "body") (jget req_body "recipient_name")
        (jget req_body "recipient_email")) pat = true := by
    intro pat hp
    cases htr : truthyOpt (jget req_body "recipient_name") with
    | false =>
      have he : mkUserContent (jget req_body "sender_email") (jget req_body "subject")
          (jget req_body "body") (jget req_body "recipient_name")
          (jget req_body "recipient_email") =
          "The following is an email from '" ++ s_snd ++ "' with the subject '" ++ s_subj ++
            "' and body:\n\n---\n'" ++ s_body ++
            "'\n---\n\nDraft a concise and polite reply." := by
        simp [mkUserContent, hsnd, hsub, hbody, pyStr, Json.pyStr, htr]
      rw [he]
      exact hp
    | true =>
      have he : mkUserContent (jget req_body "sender_email") (jget req_body "subject")
          (jget req_body "body") (jget req_body "recipient_name")
          (jget req_body "recipient_email") =
          ("The following is an email from '" ++ s_snd ++ "' with the subject '" ++ s_subj ++
            "' and body:\n\n---\n'" ++ s_body ++
            "'\n---\n\nDraft a concise and polite reply.") ++
          ("\n\nSign off as " ++ pyStr (jget req_body "recipient_name") ++
            " with position as Magiccars Customer Care and email contact " ++
            pyStr (jget req_body "recipient_email") ++ ".") := by
        simp only [mkUserContent, hsnd, hsub, hbody, pyStr, Json.pyStr]
        split
        · simp only [strAppend_assoc]
        · next hcond => exact absurd htr hcond
      rw [he]
      exact containsSub_left _ _ _ hp
  refine ⟨hshape _ hb1, hshape _ hb2, hshape _ hb3, ?_, ?_⟩
  · intro h
    simp [mkUserContent, h, hsnd, hsub, hbody, pyStr, Json.pyStr, truthyOpt]
  · intro r e hr hrne hre
    have htr : truthyOpt (jget req_body "recipient_name") = true := by
      rw [hr]
      simp [truthyOpt, Json.truthy, hrne]
    have he : mkUserContent (jget req_body "sender_email") (jget req_body "subject")
        (jget req_body "body") (jget req_body "recipient_name")
        (jget req_body "recipient_email") =
        ("The following is an email from '" ++ s_snd ++ "' with the subject '" ++ s_subj ++
          "' and body:\n\n---\n'" ++ s_body ++
          "'\n---\n\nDraft a concise and polite reply.") ++
        ("\n\nSign off as " ++ r ++
          " with position as Magiccars Customer Care and email contact " ++ e ++ ".") := by
      simp only [mkUserContent, hsnd, hsub, hbody, hr, hre, pyStr, Json.pyStr]
      split
      · simp only [strAppend_assoc]
      · next hcond =>
        refine absurd ?_ hcond
        simp [truthyOpt, Json.truthy, hrne]
    rw [he]
    refine ⟨strEndsWith_append _ _, ?_, ?_, ?_⟩
    · apply containsSub_right
      apply containsSub_left
      apply containsSub_left
      apply containsSub_left
      exact containsSub_right _ _ _ (containsSub_self _)
    · apply containsSub_right
      apply containsSub_left
      apply containsSub_left
      exact containsSub_right _ _ _ (by decide)
    · apply containsSub_right
      apply containsSub_left
      exact containsSub_right _ _ _ (containsSub_self _)

/-- C4 counterexample: a request whose `recipient_name` field is present but
empty gets a user turn with no signature clause at all — it does not even
contain "Magiccars Customer Care" — refuting the unamended claim that any
present `recipient_name` yields a signature clause. -/
theorem C4_counterexample :
    jget [("subject", Json.str "Hi"), ("body", Json.str "Hello"),
          ("sender_email", Json.str "a@x.com"), ("recipient_email", Json.str "b@y.com"),
          ("recipient_name", Json.str "")] "recipient_name" = some (Json.str "") ∧
    containsSub (mkUserContent
      (jget [("subject", Json.str "Hi"), ("body", Json.str "Hello"),
             ("sender_email", Json.str "a@x.com"), ("recipient_email", Json.str "b@y.com"),
             ("recipient_name", Json.str "")] "sender_email")
      (jget [("subject", Json.str "Hi"), ("body", Json.str "Hello"),
             ("sender_email", Json.str "a@x.com"), ("recipient_email", Json.str "b@y.com"),
             ("recipient_name", Json.str "")] "subject")
      (jget [("subject", Json.str "Hi"), ("body", Json.str "Hello"),
             ("sender_email", Json.str "a@x.com"), ("recipient_email", Json.str "b@y.com"),
             ("recipient_name", Json.str "")] "body")
      (jget [("subject", Json.str "Hi"), ("body", Json.str "Hello"),
             ("sender_email", Json.str "a@x.com"), ("recipient_email", Json.str "b@y.com"),
             ("recipient_name", Json.str "")] "recipient_name")
      (jget [("subject", Json.str "Hi"), ("body", Json.str "Hello"),
             ("sender_email", Json.str "a@x.com"), ("recipient_email", Json.str "b@y.com"),
             ("recipient_name", Json.str "")] "recipient_email"))
      "Magiccars Customer Care" = false := by
  refine ⟨by simp [jget], by decide⟩

/-- Witness for the amended C4 at a concrete request with a non-empty
`recipient_name`. -/
theorem C4_witness :
    jget [("subject", Json.str "Hi"), ("body", Json.str "Hello"),
          ("sender_email", Json.str "a@x.com"), ("recipient_email", Json.str "b@y.com"),
          ("recipient_name", Json.str "John")] "sender_email" = some (Json.str "a@x.com") ∧
    strEndsWith (mkUserContent
        (jget [("subject", Json.str "Hi"), ("body", Json.str "Hello"),
               ("sender_email", Json.str "a@x.com"), ("recipient_email", Json.str "b@y.com"),
               ("recipient_name", Json.str "John")] "sender_email")
        (jget [("subject", Json.str "Hi"), ("body", Json.str "Hello"),
               ("sender_email", Json.str "a@x.com"), ("recipient_email", Json.str "b@y.com"),
               ("recipient_name", Json.str "John")] "subject")
        (jget [("subject", Json.str "Hi"), ("body", Json.str "Hello"),
               ("sender_email", Json.str "a@x.com"), ("recipient_email", Json.str "b@y.com"),
               ("recipient_name", Json.str "John")] "body")
        (jget [("subject", Json.str "Hi"), ("body", Json.str "Hello"),
               ("sender_email", Json.str "a@x.com"), ("recipient_email", Json.str "b@y.com"),
               ("recipient_name", Json.str "John")] "recipient_name")
        (jget [("subject", Json.str "Hi"), ("body", Json.str "Hello"),
               ("sender_email", Json.str "a@x.com"), ("recipient_email", Json.str "b@y.com"),
               ("recipient_name", Json.str "John")] "recipient_email"))
      ("\n\nSign off as " ++ "John" ++
        " with position as Magiccars Customer Care and email contact " ++ "b@y.com" ++ ".")
      = true ∧
    containsSub (mkUserContent
        (jget [("subject", Json.str "Hi"), ("body", Json.str "Hello"),
               ("sender_email", Json.str "a@x.com"), ("recipient_email", Json.str "b@y.com"),
               ("recipient_name", Json.str "John")] "sender_email")
        (jget [("subject", Json.str "Hi"), ("body", Json.str "Hello"),
               ("sender_email", Json.str "a@x.com"), ("recipient_email", Json.str "b@y.com"),
               ("recipient_name", Json.str "John")] "subject")
        (jget [("subject", Json.str "Hi"), ("body", Json.str "Hello"),
               ("sender_email", Json.str "a@x.com"), ("recipient_email", Json.str "b@y.com"),
               ("recipient_name", Json.str "John")] "body")
        (jget [("subject", Json.str "Hi"), ("body", Json.str "Hello"),
               ("sender_email", Json.str "a@x.com"), ("recipient_email", Json.str "b@y.com"),
               ("recipient_name", Json.str "John")] "recipient_name")
        (jget [("subject", Json.str "Hi"), ("body", Json.str "Hello"),
               ("sender_email", Json.str "a@x.com"), ("recipient_email", Json.str "b@y.com"),
               ("recipient_name", Json.str "John")] "recipient_email"))
      "Magiccars Customer Care" = true := by
  have h := C4_amended_user_turn
    [("subject", Json.str "Hi"), ("body", Json.str "Hello"),
     ("sender_email", Json.str "a@x.com"), ("recipient_email", Json.str "b@y.com"),
     ("recipient_name", Json.str "John")]
    "a@x.com" "Hi" "Hello" (by simp [jget]) (by simp [jget]) (by simp [jget])
  obtain ⟨-, -, -, -, h5⟩ := h
  have h5i := h5 "John" "b@y.com" (by simp [jget]) (by simp) (by simp [jget])
  exact ⟨by simp [jget], h5i.1, h5i.2.2.1⟩

/-- C5: with a valid token and all four fields present, the draft-creation
endpoint maps a provider 201 to `(201, "Draft created.")` and any other
provider status to `(status, "Failed to create draft.")`. -/
theorem C5_provider_status_mapping (env : String → Option String) (o : GraphOracles)
    (req_body : JsonObj) (t c s tok text : String) (tokd : List (String × String))
    (subj bdy rcpt sndr : Json) (status : Nat)
    (h1 : env "AZURE_TENANT_ID" = some t) (h2 : env "AZURE_CLIENT_ID" = some c)
    (h3 : env "AZURE_CLIENT_SECRET" = some s)
    (htok : o.tokenResult = .ok tokd)
    (hat : sget tokd "access_token" = some tok) (htne : tok ≠ "")
    (hsub : jget req_body "subject" = some subj)
    (hbody : jget req_body "body" = some bdy)
    (hrcpt : jget req_body "recipient_email" = some rcpt)
    (hsndr : jget req_body "sender_email" = some sndr)
    (hpost : o.postResult = .ok (status, text)) :
    create_outlook_draft env o (some req_body) =
      .ok (some (if status = 201 then ⟨"Draft created.", 201⟩
                 else ⟨"Failed to create draft.", status⟩)) := by
  obtain ⟨tr, pr⟩ := o
  simp only at htok hpost
  subst htok
  subst hpost
  simp only [create_outlook_draft, h1, h2, h3, hat, hsub, hbody, hrcpt, hsndr]
  rw [if_neg (by simp [htne])]
  by_cases hs : status = 201 <;> simp [hs]

/-- Witness for C5: the spec's example request against providers answering
201 and 500. -/
theorem C5_witness :
    create_outlook_draft
      (fun k => if k = "AZURE_TENANT_ID" then some "t" else
                if k = "AZURE_CLIENT_ID" then some "c" else
                if k = "AZURE_CLIENT_SECRET" then some "s" else none)
      ⟨.ok [("access_token", "tok")], .ok (201, "")⟩
      (some [("subject", Json.str "Hi"), ("body", Json.str "Hello"),
             ("sender_email", Json.str "a@x.com"),
             ("recipient_email", Json.str "b@y.com")]) =
      .ok (some ⟨"Draft created.", 201⟩) ∧
    create_outlook_draft
      (fun k => if k = "AZURE_TENANT_ID" then some "t" else
                if k = "AZURE_CLIENT_ID" then some "c" else
                if k = "AZURE_CLIENT_SECRET" then some "s" else none)
      ⟨.ok [("access_token", "tok")], .ok (500, "server error")⟩
      (some [("subject", Json.str "Hi"), ("body", Json.str "Hello"),
             ("sender_email", Json.str "a@x.com"),
             ("recipient_email", Json.str "b@y.com")]) =
      .ok (some ⟨"Failed to create draft.", 500⟩) := by
  constructor
  · have h := C5_provider_status_mapping
      (fun k => if k = "AZURE_TENANT_ID" then some "t" else
                if k = "AZURE_CLIENT_ID" then some "c" else
                if k = "AZURE_CLIENT_SECRET" then some "s" else none)
      ⟨.ok [("access_token", "tok")], .ok (201, "")⟩
      [("subject", Json.str "Hi"), ("body", Json.str "Hello"),
       ("sender_email", Json.str "a@x.com"), ("recipient_email", Json.str "b@y.com")]
      "t" "c" "s" "tok" "" [("access_token", "tok")]
      (Json.str "Hi") (Json.str "Hello") (Json.str "b@y.com") (Json.str "a@x.com") 201
      rfl rfl rfl rfl (by simp [sget]) (by simp) (by simp [jget]) (by simp [jget])
      (by simp [jget]) (by simp [jget]) rfl
    simpa using h
  · have h := C5_provider_status_mapping
      (fun k => if k = "AZURE_TENANT_ID" then some "t" else
                if k = "AZURE_CLIENT_ID" then some "c" else
                if k = "AZURE_CLIENT_SECRET" then some "s" else none)
      ⟨.ok [("access_token", "tok")], .ok (500, "server error")⟩
      [("subject", Json.str "Hi"), ("body", Json.str "Hello"),
       ("sender_email", Json.str "a@x.com"), ("recipient_email", Json.str "b@y.com")]
      "t" "c" "s" "tok" "server error" [("access_token", "tok")]
      (Json.str "Hi") (Json.str "Hello") (Json.str "b@y.com") (Json.str "a@x.com") 500
      rfl rfl rfl rfl (by simp [sget]) (by simp) (by simp [jget]) (by simp [jget])
      (by simp [jget]) (by simp [jget]) rfl
    simpa using h

/-- C7: when the identity provider's token result carries no access token,
`create_outlook_draft` returns no response object at all (the bare `return`
at line 174), rather than any error response. -/
theorem C7_no_token_no_response (env : String → Option String) (o : GraphOracles)
    (req_body : JsonObj) (t c s : String) (tokd : List (String × String))
    (h1 : env "AZURE_TENANT_ID" = some t) (h2 : env "AZURE_CLIENT_ID" = some c)
    (h3 : env "AZURE_CLIENT_SECRET" = some s)
    (htok : o.tokenResult = .ok tokd)
    (hat : sget tokd "access_token" = none) :
    create_outlook_draft env o (some req_body) = .ok none := by
  obtain ⟨tr, pr⟩ := o
  simp only at htok
  subst htok
  simp only [create_outlook_draft, h1, h2, h3, hat]
  rw [if_pos (Or.inl trivial)]

/-- Witness for C7: a token dict with no `access_token` key. -/
theorem C7_witness :
    sget [("error", "invalid_client")] "access_token" = none ∧
    create_outlook_draft
      (fun k => if k = "AZURE_TENANT_ID" then some "t" else
                if k = "AZURE_CLIENT_ID" then some "c" else
                if k = "AZURE_CLIENT_SECRET" then some "s" else none)
      ⟨.ok [("error", "invalid_client")], .ok (201, "")⟩
      (some [("subject", Json.str "Hi"), ("body", Json.str "Hello"),
             ("sender_email", Json.str "a@x.com"),
             ("recipient_email", Json.str "b@y.com")]) = .ok none :=
  ⟨by simp [sget],
   C7_no_token_no_response _ _ _ "t" "c" "s" [("error", "invalid_client")]
     rfl rfl rfl rfl (by simp [sget])⟩

/-- C6 (amended): within the worker, every exception raised during reply
generation, the queue-B draft-payload enqueue, or audit-record posting is
caught and never propagates out of the handler; and every invocation of the
text-generation service uses temperature 0.7 and max_tokens 250 exactly.
(The unamended claim also covered draft-payload submission in the
draft-creation endpoint, where exceptions do propagate — see the
counterexample.) -/
theorem C6_amended_worker_swallows_fixed_params :
    (∀ (env : String → Option String) (o : Oracles) (msg : Option JsonObj),
      (process_generate_email env o msg).2 = Except.ok ()) ∧
    (∀ (env : String → Option String) (o : Oracles) (msg : Option JsonObj) (p : ChatParams),
      Effect.openaiCreate p ∈ (process_generate_email env o msg).1 →
      p.temperature = 0.7 ∧ p.max_tokens = 250) := by
  constructor
  · intro env o msg
    obtain ⟨r1, r2, r3, r4⟩ := o
    rcases msg with _ | rb
    · rfl
    · rcases r1 with e1 | content <;>
      rcases r2 with e2 | ⟨⟩ <;>
      rcases r3 with e3 | ⟨⟩ <;>
      rcases h1 : env "AZURE_OPENAI_API_KEY" with _ | k1 <;>
      rcases h2 : env "AZURE_OPENAI_ENDPOINT" with _ | k2 <;>
      rcases h3 : env "AZURE_OPENAI_DEPLOYMENT_NAME" with _ | k3 <;>
      rcases ha1 : env "AIRTABLE_API_KEY" with _ | a1 <;>
      rcases ha2 : env "AIRTABLE_URL_METADATA" with _ | a2 <;>
      rcases ha3 : env "AIRTABLE_URL_TRAINING" with _ | a3 <;>
      simp [process_generate_email, h1, h2, h3, ha1, ha2, ha3]
  · intro env o msg p hp
    obtain ⟨r1, r2, r3, r4⟩ := o
    rcases msg with _ | rb
    · simp [process_generate_email] at hp
    · rcases r1 with e1 | content <;>
      rcases r2 with e2 | ⟨⟩ <;>
      rcases r3 with e3 | ⟨⟩ <;>
      rcases h1 : env "AZURE_OPENAI_API_KEY" with _ | k1 <;>
      rcases h2 : env "AZURE_OPENAI_ENDPOINT" with _ | k2 <;>
      rcases h3 : env "AZURE_OPENAI_DEPLOYMENT_NAME" with _ | k3 <;>
      rcases ha1 : env "AIRTABLE_API_KEY" with _ | a1 <;>
      rcases ha2 : env "AIRTABLE_URL_METADATA" with _ | a2 <;>
      rcases ha3 : env "AIRTABLE_URL_TRAINING" with _ | a3 <;>
      simp [process_generate_email, h1, h2, h3, ha1, ha2, ha3] at hp <;>
      simp [hp]

/-- Witness for C6: a concrete run whose trace contains a generation call;
the fixed parameters follow by the theorem. -/
theorem C6_witness :
    ∃ p : ChatParams,
      Effect.openaiCreate p ∈ (process_generate_email
        (fun k => if k = "AZURE_OPENAI_API_KEY" then some "k" else
                  if k = "AZURE_OPENAI_ENDPOINT" then some "e" else
                  if k = "AZURE_OPENAI_DEPLOYMENT_NAME" then some "d" else none)
        ⟨.ok "Hello", .ok (), .ok (), .ok ()⟩
        (some [("subject", Json.str "Hi"), ("body", Json.str "B"),
               ("sender_email", Json.str "a@x.com")])).1 ∧
      p.temperature = 0.7 ∧ p.max_tokens = 250 := by
  refine ⟨_, List.mem_cons_self _ _, ?_⟩
  exact C6_amended_worker_swallows_fixed_params.2
    (fun k => if k = "AZURE_OPENAI_API_KEY" then some "k" else
              if k = "AZURE_OPENAI_ENDPOINT" then some "e" else
              if k = "AZURE_OPENAI_DEPLOYMENT_NAME" then some "d" else none)
    ⟨.ok "Hello", .ok (), .ok (), .ok ()⟩
    (some [("subject", Json.str "Hi"), ("body", Json.str "B"),
           ("sender_email", Json.str "a@x.com")])
    _ (List.mem_cons_self _ _)

/-- C6 counterexample: in the draft-creation endpoint a transport exception
raised while submitting the draft payload to the mailbox provider propagates
out of the handler (there is no try/except around `requests.post`), refuting
the unamended claim that such exceptions are always caught. -/
theorem C6_counterexample :
    create_outlook_draft
      (fun k => if k = "AZURE_TENANT_ID" then some "t" else
                if k = "AZURE_CLIENT_ID" then some "c" else
                if k = "AZURE_CLIENT_SECRET" then some "s" else none)
      ⟨.ok [("access_token", "tok")], .error "ConnectionError"⟩
      (some [("subject", Json.str "Hi"), ("body", Json.str "Hello"),
             ("sender_email", Json.str "a@x.com"),
             ("recipient_email", Json.str "b@y.com")]) =
      .error "ConnectionError" := by
  simp [create_outlook_draft, sget, jget]

/-- In every worker run, no `httpPost` occurs before the first `queueBSet`. -/
theorem worker_trace_ordered (env : String → Option String) (o : Oracles)
    (msg : Option JsonObj) :
    enqueuePrecedesPosts (process_generate_email env o msg).1 = true := by
  obtain ⟨r1, r2, r3, r4⟩ := o
  rcases msg with _ | rb
  · rfl
  · rcases r1 with e1 | content <;>
    rcases r2 with e2 | ⟨⟩ <;>
    rcases r3 with e3 | ⟨⟩ <;>
    rcases h1 : env "AZURE_OPENAI_API_KEY" with _ | k1 <;>
    rcases h2 : env "AZURE_OPENAI_ENDPOINT" with _ | k2 <;>
    rcases h3 : env "AZURE_OPENAI_DEPLOYMENT_NAME" with _ | k3 <;>
    rcases ha1 : env "AIRTABLE_API_KEY" with _ | a1 <;>
    rcases ha2 : env "AIRTABLE_URL_METADATA" with _ | a2 <;>
    rcases ha3 : env "AIRTABLE_URL_TRAINING" with _ | a3 <;>
    simp [process_generate_email, enqueuePrecedesPosts, h1, h2, h3, ha1, ha2, ha3]

/-- Soundness of the scan: in a list passing `enqueuePrecedesPosts`, every
`httpPost` is preceded by some `queueBSet`. -/
theorem enqueuePrecedesPosts_sound (l : List Effect)
    (h : enqueuePrecedesPosts l = true) (l1 l2 : List Effect) (u : String) (b : Json)
    (hd : l = l1 ++ Effect.httpPost u b :: l2) :
    ∃ j, Effect.queueBSet j ∈ l1 := by
  induction l generalizing l1 l2 with
  | nil => exact absurd hd (by simp)
  | cons e rest ih =>
    cases l1 with
    | nil =>
      simp only [List.nil_append, List.cons.injEq] at hd
      obtain ⟨he, -⟩ := hd
      subst he
      simp [enqueuePrecedesPosts] at h
    | cons e1 l1' =>
      simp only [List.cons_append, List.cons.injEq] at hd
      obtain ⟨he, hrest⟩ := hd
      subst he
      cases e with
      | queueBSet j => exact ⟨j, List.mem_cons_self _ _⟩
      | httpPost u' b' => simp [enqueuePrecedesPosts] at h
      | openaiCreate p =>
        obtain ⟨j, hj⟩ := ih (by simpa [enqueuePrecedesPosts] using h) l1' l2 hrest
        exact ⟨j, List.mem_cons_of_mem _ hj⟩

/-- C9: the queue-B enqueue happens before either audit post: any `httpPost`
in a worker trace is preceded by a `queueBSet`; and when generation and the
queue-B enqueue succeed but the audit post raises, the reply message is still
in the trace (the enqueue is not undone by the failure). -/
theorem C9_enqueue_before_audit :
    (∀ (env : String → Option String) (o : Oracles) (msg : Option JsonObj)
       (l1 l2 : List Effect) (u : String) (b : Json),
       (process_generate_email env o msg).1 = l1 ++ Effect.httpPost u b :: l2 →
       ∃ j, Effect.queueBSet j ∈ l1) ∧
    (∀ (env : String → Option String) (o : Oracles) (req_body : JsonObj)
       (content e k1 k2 dn : String),
       env "AZURE_OPENAI_API_KEY" = some k1 → env "AZURE_OPENAI_ENDPOINT" = some k2 →
       env "AZURE_OPENAI_DEPLOYMENT_NAME" = some dn →
       o.openaiResult = .ok content → o.queueBResult = .ok () →
       o.postMetadataResult = .error e →
       ∃ j, Effect.queueBSet j ∈ (process_generate_email env o (some req_body)).1) := by
  constructor
  · intro env o msg l1 l2 u b hd
    exact enqueuePrecedesPosts_sound _ (worker_trace_ordered env o msg) l1 l2 u b hd
  · intro env o req_body content e k1 k2 dn h1 h2 h3 hok hqb hpm
    obtain ⟨r1, r2, r3, r4⟩ := o
    simp only at hok hqb hpm
    subst hok
    subst hqb
    subst hpm
    simp only [process_generate_email, h1, h2, h3]
    rcases ha1 : env "AIRTABLE_API_KEY" with _ | a1 <;>
    rcases ha2 : env "AIRTABLE_URL_METADATA" with _ | a2 <;>
    rcases ha3 : env "AIRTABLE_URL_TRAINING" with _ | a3 <;>
    simp only [ha1, ha2, ha3] <;>
    exact ⟨Json.obj
      [("subject", .str ("Re: " ++ pyStr (jget req_body "subject"))),
       ("body", .str content.trim),
       ("recipient_email", jval (jget req_body "sender_email")),
       ("sender_email", jval (jget req_body "recipient_email"))], by simp⟩

/-- Witness for C9: a run in which the metadata audit post raises after a
successful generation and enqueue; the reply is still in the trace. -/
theorem C9_witness :
    ∃ j, Effect.queueBSet j ∈ (process_generate_email
      (fun k => if k = "AZURE_OPENAI_API_KEY" then some "k" else
                if k = "AZURE_OPENAI_ENDPOINT" then some "e" else
                if k = "AZURE_OPENAI_DEPLOYMENT_NAME" then some "d" else
                if k = "AIRTABLE_API_KEY" then some "ak" else
                if k = "AIRTABLE_URL_METADATA" then some "um" else
                if k = "AIRTABLE_URL_TRAINING" then some "ut" else none)
      ⟨.ok "Hello", .ok (), .error "AirtableDown", .ok ()⟩
      (some [("subject", Json.str "Hi"), ("body", Json.str "B"),
             ("sender_email", Json.str "a@x.com")])).1 :=
  C9_enqueue_before_audit.2
    (fun k => if k = "AZURE_OPENAI_API_KEY" then some "k" else
              if k = "AZURE_OPENAI_ENDPOINT" then some "e" else
              if k = "AZURE_OPENAI_DEPLOYMENT_NAME" then some "d" else
              if k = "AIRTABLE_API_KEY" then some "ak" else
              if k = "AIRTABLE_URL_METADATA" then some "um" else
              if k = "AIRTABLE_URL_TRAINING" then some "ut" else none)
    ⟨.ok "Hello", .ok (), .error "AirtableDown", .ok ()⟩
    [("subject", Json.str "Hi"), ("body", Json.str "B"),
     ("sender_email", Json.str "a@x.com")]
    "Hello" "AirtableDown" "k" "e" "d" rfl rfl rfl rfl rfl rfl
